import Mathlib

/-
Verification of the cache-aside weather lookup service implemented in
src/Weather API/wapp.py, against its natural-language specification.

The embedding models Python strings as lists of characters, the JSON
payload returned by the upstream provider as an inductive value, the
Redis cache as an association list of entries with an absolute expiry
deadline, and Python exceptions as an explicit error type threaded
through Except.  Every definition below is translated from the source
file; the only behaviour not present under src/ is the TTL expiry
check performed inside the Redis server (the source delegates it to
client.setex / client.get), which is modelled from the spec and
flagged as such in its doc comment.
-/

namespace WeatherAPI

/-- Python strings, modelled as lists of characters. -/
abbrev Str := List Char

/-- JSON values as returned by response.json() in wapp.py.  The subset
of JSON actually exchanged with the OpenWeather API: null, strings,
numbers (modelled as integers; no claim depends on fractional values),
and objects (Python dicts with unique keys). -/
inductive Json where
  | null
  | jstr (s : Str)
  | jnum (n : Int)
  | jobj (fields : List (Str × Json))

/-- Python exceptions that the code in wapp.py can raise and does not
catch: KeyError from dict subscription, TypeError from subscripting a
non-dict, and redis.ConnectionError when the Redis backend is
unreachable. -/
inductive PyErr where
  | keyError (k : Str)
  | typeError
  | connectionError
deriving DecidableEq

/-- Association-list lookup used to model Python dict subscription
(dict keys are unique, so first match is the value). -/
def lookupField (fields : List (Str × Json)) (k : Str) : Option Json :=
  match fields with
  | [] => none
  | (k2, v) :: rest => if k2 == k then some v else lookupField rest k

/-- Python body[k]: raises KeyError when the key is absent and
TypeError when body is not a dict. -/
def Json.index (j : Json) (k : Str) : Except PyErr Json :=
  match j with
  | .jobj fields =>
    match lookupField fields k with
    | some v => Except.ok v
    | none => Except.error (PyErr.keyError k)
  | _ => Except.error PyErr.typeError

/-- Python body.get(k): returns None (here: none) when the key is
absent, never raises on a dict. -/
def Json.getOpt (j : Json) (k : Str) : Except PyErr (Option Json) :=
  match j with
  | .jobj fields => Except.ok (lookupField fields k)
  | _ => Except.error PyErr.typeError

def kName : Str := "name".data
def kMain : Str := "main".data
def kTemp : Str := "temp".data
def kFeels : Str := "feels_like".data
def kHumidity : Str := "humidity".data
def kPressure : Str := "pressure".data
def kWind : Str := "wind".data
def kSpeed : Str := "speed".data
def kClouds : Str := "clouds".data
def kAll : Str := "all".data
def kTimezone : Str := "timezone".data

/-- The processed record built by fetch_weather (wapp.py lines 88-97).
The name field holds the result of body.get('name'), which is None
(here: none) when absent; every other field is obtained by direct
subscription. -/
structure WeatherData where
  name : Option Json
  temperature : Json
  feels_like : Json
  humidity : Json
  pressure : Json
  wind : Json
  clouds : Json
  timezone : Json

/-- Extraction of the required fields from the upstream JSON body
(wapp.py lines 87-97).  Field values are computed in the order they
appear in the Python dict literal; the first failing subscription
raises.  Only 'name' is read via .get, so only 'name' tolerates
absence. -/
def extractData (body : Json) : Except PyErr WeatherData := do
  let nm ← body.getOpt kName
  let temperature ← (← body.index kMain).index kTemp
  let feels ← (← body.index kMain).index kFeels
  let humidity ← (← body.index kMain).index kHumidity
  let pressure ← (← body.index kMain).index kPressure
  let windv ← (← body.index kWind).index kSpeed
  let cloudsv ← (← body.index kClouds).index kAll
  let tz ← body.index kTimezone
  return ⟨nm, temperature, feels, humidity, pressure, windv, cloudsv, tz⟩

/-- One cached entry: the cache key, the stored record (json.dumps of
the record is stored in Redis; json.loads (json.dumps d) = d for this
shape, so the record is stored directly), and the absolute expiry
deadline storedAt + ttl set by client.setex. -/
structure CacheEntry where
  key : Str
  val : WeatherData
  deadline : Nat

/-- The state of the Redis database used as the cache. -/
abbrev CacheState := List CacheEntry

/-- Modelled from the spec: the TTL expiry check of the Redis backend
(the server-side code is not under src/; wapp.py delegates expiry to
client.setex).  Per the spec, an entry is valid iff now < storedAt +
ttl; an expired entry is treated identically to a missing one.  New
entries are prepended by cacheSet, so first match is last-write-wins. -/
def cacheGet (c : CacheState) (now : Nat) (k : Str) : Option WeatherData :=
  match c with
  | [] => none
  | e :: rest =>
    if e.key == k then (if now < e.deadline then some e.val else none)
    else cacheGet rest now k

/-- Effect of client.setex(key, ttl, value): stores a fresh entry with
deadline now + ttl, overwriting any prior entry for the key (the new
entry is prepended and cacheGet takes the first match). -/
def cacheSet (c : CacheState) (k : Str) (v : WeatherData) (deadline : Nat) : CacheState :=
  ⟨k, v, deadline⟩ :: c

/-- Raw upstream HTTP response: status code and parsed JSON body. -/
structure UpstreamResp where
  status : Nat
  body : Json

/-- Environment a fetch_weather call runs in: whether the Redis client
raises on get / on setex (redis.ConnectionError when the backend is
unreachable), the current cache contents, the current time, the
configured CACHE_TIME, and the upstream provider as a function of the
request parameter q = "city,country". -/
structure Env where
  cacheGetFails : Bool
  cacheSetFails : Bool
  cache : CacheState
  now : Nat
  ttl : Nat
  upstream : Str → UpstreamResp

/-- The q parameter sent to the upstream API (wapp.py line 73). -/
def qOf (city country : Str) : Str := city ++ ',' :: country

/-- The cache key built at wapp.py line 61: "weather:city,country". -/
def cacheKeyOf (city country : Str) : Str := "weather:".data ++ city ++ ',' :: country

/-- Observable outcome of one fetch_weather call: the returned value
(ok none models the Python return None; error models an uncaught
exception), the cache state afterwards, the number of requests.get
evaluations, and the number of Redis client calls attempted. -/
structure FWResult where
  result : Except PyErr (Option WeatherData)
  cache : CacheState
  upstreamCalls : Nat
  cacheCalls : Nat

/-- Translation of fetch_weather (wapp.py lines 58-105).  Control flow:
read the cache (an unreachable backend raises and the exception
propagates, since the source has no try/except); on a truthy cached
string return the decoded record; on a miss call requests.get once;
on a non-200 status return None; extract the fields (a KeyError
propagates); store the record via setex (a raised setex error also
propagates); return the record. -/
def fetch_weather (env : Env) (city country : Str) : FWResult :=
  let key := cacheKeyOf city country
  if env.cacheGetFails then
    ⟨Except.error PyErr.connectionError, env.cache, 0, 1⟩
  else
    match cacheGet env.cache env.now key with
    | some d => ⟨Except.ok (some d), env.cache, 0, 1⟩
    | none =>
      let resp := env.upstream (qOf city country)
      if resp.status ≠ 200 then
        ⟨Except.ok none, env.cache, 1, 1⟩
      else
        match extractData resp.body with
        | Except.error e => ⟨Except.error e, env.cache, 1, 1⟩
        | Except.ok d =>
          if env.cacheSetFails then
            ⟨Except.error PyErr.connectionError, env.cache, 1, 2⟩
          else
            ⟨Except.ok (some d), cacheSet env.cache key d (env.now + env.ttl), 1, 2⟩

/-- Whitespace recognised by Python str.strip() with no argument, by
codepoint: space 32, tab 9, newline 10, carriage return 13, vertical
tab 11, form feed 12. -/
def isWS (c : Char) : Bool :=
  c.toNat == 32 || c.toNat == 9 || c.toNat == 10 || c.toNat == 13 || c.toNat == 11 || c.toNat == 12

/-- Python str.lower() on one character (ASCII case mapping; all
inputs exercised by the claims are ASCII). -/
def lowerChar (c : Char) : Char :=
  if 65 ≤ c.toNat ∧ c.toNat ≤ 90 then Char.ofNat (c.toNat + 32) else c

/-- Python s.strip(): drop leading and trailing whitespace. -/
def pyStrip (s : Str) : Str :=
  ((s.dropWhile isWS).reverse.dropWhile isWS).reverse

/-- Python s.lower(). -/
def pyLower (s : Str) : Str := s.map lowerChar

/-- The per-component normalisation x.strip().lower() applied at
wapp.py line 140. -/
def normalizeComponent (s : Str) : Str := pyLower (pyStrip s)

/-- Python info.split(",", 1): split at the first comma.  Returns none
when there is no comma, in which case unpacking into city, country
raises ValueError (caught at wapp.py line 141). -/
def pySplitComma1 : Str → Option (Str × Str)
  | [] => none
  | c :: rest =>
    if c = ',' then some ([], rest)
    else
      match pySplitComma1 rest with
      | some (a, b) => some (c :: a, b)
      | none => none

/-- End-to-end key derivation for an inbound request string: split at
the first comma, normalise each component (wapp.py line 140), and
build the cache key (wapp.py line 61).  none when the input has no
comma and is rejected as malformed. -/
def deriveKey (info : Str) : Option Str :=
  (pySplitComma1 info).map fun p => cacheKeyOf (normalizeComponent p.1) (normalizeComponent p.2)

/-- Body of an HTTP response produced by the /weather route: either a
literal message string or the rendered weather_info.html page for a
record. -/
inductive RouteResponse where
  | text (s : Str)
  | page (d : WeatherData)

def invalidInputMsg : Str := "Invalid input. Try e.g. Hyderabad,IN".data

def invalidFormatMsg : Str := "Invalid format. Use City,Country (e.g. Hyderabad,IN)".data

def fetchFailedMsg : Str := "Could not fetch weather. Please check city name.".data

/-- Observable outcome of one /weather request: the response (error
models an exception propagating out of the route handler), the cache
state afterwards, and the numbers of upstream and Redis calls made
while serving it. -/
structure RouteResult where
  response : Except PyErr RouteResponse
  cache : CacheState
  upstreamCalls : Nat
  cacheCalls : Nat

/-- Translation of the /weather route (wapp.py lines 129-151).  The
city query parameter may be absent (none).  A falsy value (absent or
empty) yields the invalid-input message; an input with no comma makes
the unpacking raise ValueError, caught and turned into the
invalid-format message; otherwise both components are stripped,
lowercased and passed to fetch_weather; a None result yields the
could-not-fetch message, and a record renders the page.  Exceptions
raised inside fetch_weather are not caught by the route. -/
def weather (env : Env) (info : Option Str) : RouteResult :=
  match info with
  | none => ⟨Except.ok (RouteResponse.text invalidInputMsg), env.cache, 0, 0⟩
  | some s =>
    if s.isEmpty then
      ⟨Except.ok (RouteResponse.text invalidInputMsg), env.cache, 0, 0⟩
    else
      match pySplitComma1 s with
      | none => ⟨Except.ok (RouteResponse.text invalidFormatMsg), env.cache, 0, 0⟩
      | some p =>
        let r := fetch_weather env (normalizeComponent p.1) (normalizeComponent p.2)
        match r.result with
        | Except.error e => ⟨Except.error e, r.cache, r.upstreamCalls, r.cacheCalls⟩
        | Except.ok none =>
          ⟨Except.ok (RouteResponse.text fetchFailedMsg), r.cache, r.upstreamCalls, r.cacheCalls⟩
        | Except.ok (some d) =>
          ⟨Except.ok (RouteResponse.page d), r.cache, r.upstreamCalls, r.cacheCalls⟩

/-- Program counter of one in-flight fetch_weather call, split at its
I/O boundaries: about to read the cache, about to issue the upstream
request, about to write the cache with the extracted record, or done
with a result.  Between any two of these atomic actions another
concurrent request may run (the redis and HTTP calls release the GIL),
so an interleaving of these actions models concurrent requests served
by the Flask app. -/
inductive ThreadPC where
  | atGet
  | atHttp
  | atSet (d : WeatherData)
  | finished (r : Except PyErr (Option WeatherData))

/-- One concurrent fetch_weather invocation and its progress. -/
structure Thread where
  city : Str
  country : Str
  pc : ThreadPC

/-- Shared state of the concurrent system: the cache shared by all
requests, the total number of upstream requests issued, and the
per-request threads. -/
structure SysState where
  cache : CacheState
  upstreamCalls : Nat
  threads : List Thread

/-- Environment shared by all concurrent requests (healthy cache
backend; all steps run within one TTL window). -/
structure ConcEnv where
  now : Nat
  ttl : Nat
  upstream : Str → UpstreamResp

/-- One atomic action of a single fetch_weather invocation, following
the control flow of wapp.py lines 58-105: a cache read that either
finishes with the cached record or advances to the upstream request; an
upstream request that finishes with None on non-200, finishes with a
raised error if extraction fails, and otherwise advances to the cache
write; a cache write that finishes with the record. -/
def stepThread (ce : ConcEnv) (cache : CacheState) (calls : Nat) (t : Thread) :
    CacheState × Nat × Thread :=
  match t.pc with
  | ThreadPC.atGet =>
    match cacheGet cache ce.now (cacheKeyOf t.city t.country) with
    | some d => (cache, calls, ⟨t.city, t.country, ThreadPC.finished (Except.ok (some d))⟩)
    | none => (cache, calls, ⟨t.city, t.country, ThreadPC.atHttp⟩)
  | ThreadPC.atHttp =>
    let resp := ce.upstream (qOf t.city t.country)
    if resp.status ≠ 200 then
      (cache, calls + 1, ⟨t.city, t.country, ThreadPC.finished (Except.ok none)⟩)
    else
      match extractData resp.body with
      | Except.error e => (cache, calls + 1, ⟨t.city, t.country, ThreadPC.finished (Except.error e)⟩)
      | Except.ok d => (cache, calls + 1, ⟨t.city, t.country, ThreadPC.atSet d⟩)
  | ThreadPC.atSet d =>
    (cacheSet cache (cacheKeyOf t.city t.country) d (ce.now + ce.ttl), calls,
      ⟨t.city, t.country, ThreadPC.finished (Except.ok (some d))⟩)
  | ThreadPC.finished _ => (cache, calls, t)

/-- Run one atomic action of thread i (no-op when i is out of range). -/
def stepSys (ce : ConcEnv) (s : SysState) (i : Nat) : SysState :=
  match s.threads[i]? with
  | none => s
  | some t =>
    let r := stepThread ce s.cache s.upstreamCalls t
    ⟨r.1, r.2.1, s.threads.set i r.2.2⟩

/-- Run the system under an explicit schedule (list of thread ids). -/
def runSched (ce : ConcEnv) (s : SysState) : List Nat → SysState
  | [] => s
  | i :: rest => runSched ce (stepSys ce s i) rest

/-- Result of thread i after a run. -/
def threadResult (s : SysState) (i : Nat) : Option ThreadPC :=
  (s.threads[i]?).map Thread.pc

/-- A sample upstream JSON body with all the fields wapp.py reads. -/
def sampleBody : Json :=
  Json.jobj
    [(kName, Json.jstr ("Hyderabad".data)),
     (kMain, Json.jobj
       [(kTemp, Json.jnum 30), (kFeels, Json.jnum 32),
        (kHumidity, Json.jnum 65), (kPressure, Json.jnum 1012)]),
     (kWind, Json.jobj [(kSpeed, Json.jnum 5)]),
     (kClouds, Json.jobj [(kAll, Json.jnum 40)]),
     (kTimezone, Json.jnum 19800)]

/-- The record extractData produces from sampleBody. -/
def sampleRecord : WeatherData :=
  ⟨some (Json.jstr ("Hyderabad".data)), Json.jnum 30, Json.jnum 32,
   Json.jnum 65, Json.jnum 1012, Json.jnum 5, Json.jnum 40, Json.jnum 19800⟩

/-- An upstream that answers every query with status 200 and
sampleBody. -/
def goodUpstream : Str → UpstreamResp := fun _ => ⟨200, sampleBody⟩

/-- A sample upstream body lacking the nested 'main' object. -/
def noMainBody : Json := Json.jobj [(kName, Json.jstr ("Hyderabad".data))]

/-- Healthy environment: working cache backend, empty cache, time 0,
TTL 300 seconds, upstream always succeeding. -/
def env1 : Env := ⟨false, false, [], 0, 300, goodUpstream⟩

/-- The environment of a second request at time 100, whose cache is
the cache left behind by a first lookup of hyderabad,in in env1. -/
def env1b : Env :=
  ⟨false, false, (fetch_weather env1 ("hyderabad".data) ("in".data)).cache, 100, 300, goodUpstream⟩

/-- Environment whose Redis backend is unreachable: every client call
raises redis.ConnectionError. -/
def envDown : Env := ⟨true, true, [], 0, 300, goodUpstream⟩

/-- Environment where only setex raises (get works and misses). -/
def envSetDown : Env := ⟨false, true, [], 0, 300, goodUpstream⟩

/-- Environment whose upstream returns 200 but with a body lacking the
'main' object. -/
def envNoMain : Env := ⟨false, false, [], 0, 300, fun _ => ⟨200, noMainBody⟩⟩

/-- Environment whose upstream always answers 404 (unknown location). -/
def env404 : Env := ⟨false, false, [], 0, 300, fun _ => ⟨404, Json.null⟩⟩

/-- Environment whose upstream always answers 500 (server error). -/
def env500 : Env := ⟨false, false, [], 0, 300, fun _ => ⟨500, Json.null⟩⟩

/-- Physical removal of every entry for a key, used to compare a run
against the same run on a cache where the key is missing. -/
def eraseKey (c : CacheState) (k : Str) : CacheState :=
  c.filter (fun e => !(e.key == k))

/-- The same environment with every entry for key k physically removed
from the cache. -/
def eraseEnv (env : Env) (k : Str) : Env :=
  ⟨env.cacheGetFails, env.cacheSetFails, eraseKey env.cache k, env.now, env.ttl, env.upstream⟩

/-- Environment holding a single entry for hyderabad,in stored at time
1 with TTL 300 (deadline 301), observed at time 302, one second past
expiry. -/
def envExpired : Env :=
  ⟨false, false, [⟨cacheKeyOf ("hyderabad".data) ("in".data), sampleRecord, 301⟩], 302, 300, goodUpstream⟩

/-- Fields of an upstream body that carries every reading but no
'name' key. -/
def noNameFields : List (Str × Json) :=
  [(kMain, Json.jobj
     [(kTemp, Json.jnum 30), (kFeels, Json.jnum 32),
      (kHumidity, Json.jnum 65), (kPressure, Json.jnum 1012)]),
   (kWind, Json.jobj [(kSpeed, Json.jnum 5)]),
   (kClouds, Json.jobj [(kAll, Json.jnum 40)]),
   (kTimezone, Json.jnum 19800)]

/-- Two concurrent cold lookups of the same key hyderabad,in on an
empty shared cache. -/
def twoThreads : SysState :=
  ⟨[], 0,
   [⟨"hyderabad".data, "in".data, ThreadPC.atGet⟩,
    ⟨"hyderabad".data, "in".data, ThreadPC.atGet⟩]⟩

/-- Shared environment for the concurrent runs. -/
def concEnv1 : ConcEnv := ⟨0, 300, goodUpstream⟩

/-- Interleaving in which both requests read the cache before either
has populated it, then each completes its fetch and write. -/
def stampedeSchedule : List Nat := [0, 1, 0, 0, 1, 1]

/-- Helper: a freshly written entry is returned by a cache read
before its deadline. -/
theorem cacheGet_cacheSet_hit (c : CacheState) (k : Str) (v : WeatherData) (dl now : Nat)
    (h : now < dl) : cacheGet (cacheSet c k v dl) now k = some v := by
  unfold cacheGet cacheSet
  simp [h]

/-- Helper: a cache read that misses at time t also misses at any
later time (validity only decays). -/
theorem cacheGet_none_mono (c : CacheState) (t t' : Nat) (k : Str)
    (h : cacheGet c t k = none) (hle : t ≤ t') : cacheGet c t' k = none := by
  induction c with
  | nil => rfl
  | cons a rest ih =>
    unfold cacheGet at h ⊢
    by_cases hk : (a.key == k) = true
    · rw [if_pos hk] at h ⊢
      split at h
      · exact absurd h (by simp)
      · next hlt => rw [if_neg (by omega)]
    · rw [if_neg hk] at h ⊢
      exact ih h

/-- Helper: cacheGet misses on an erased key at any time. -/
theorem cacheGet_eraseKey (c : CacheState) (now : Nat) (k : Str) :
    cacheGet (eraseKey c k) now k = none := by
  induction c with
  | nil => rfl
  | cons a rest ih =>
    unfold eraseKey at ih ⊢
    by_cases hk : (a.key == k) = true
    · simp [List.filter_cons, hk, ih]
    · simp only [List.filter_cons, hk] at ih ⊢
      simp only [Bool.not_false, if_pos] at ih ⊢
      unfold cacheGet
      rw [if_neg hk]
      exact ih

/-- Helper: when the body lacks the 'main' object, extraction raises
KeyError('main') (wapp.py line 90 subscripts body['main'] directly). -/
theorem extractData_no_main (fields : List (Str × Json))
    (h : lookupField fields kMain = none) :
    extractData (Json.jobj fields) = Except.error (PyErr.keyError kMain) := by
  simp [extractData, Json.getOpt, Json.index, h, bind, Except.bind]

/-- Helper: when every reading is present but 'name' is absent, the
extraction succeeds with name = none (the Python None from .get). -/
theorem extractData_all_present (fields mainF windF cloudsF : List (Str × Json))
    (temp feels hum pres speed allv tz : Json)
    (hname : lookupField fields kName = none)
    (hmain : lookupField fields kMain = some (Json.jobj mainF))
    (ht : lookupField mainF kTemp = some temp)
    (hf : lookupField mainF kFeels = some feels)
    (hh : lookupField mainF kHumidity = some hum)
    (hp : lookupField mainF kPressure = some pres)
    (hw : lookupField fields kWind = some (Json.jobj windF))
    (hs : lookupField windF kSpeed = some speed)
    (hc : lookupField fields kClouds = some (Json.jobj cloudsF))
    (ha : lookupField cloudsF kAll = some allv)
    (htz : lookupField fields kTimezone = some tz) :
    extractData (Json.jobj fields) = Except.ok ⟨none, temp, feels, hum, pres, speed, allv, tz⟩ := by
  simp [extractData, Json.getOpt, Json.index, hname, hmain, ht, hf, hh, hp, hw, hs,
    hc, ha, htz, bind, Except.bind, pure, Except.pure]

/-- C1: once a key has been populated by a successful lookup, any
later lookup of the same pair within the TTL window (under a working
cache backend) returns exactly the stored record, leaves the cache
unchanged, and performs zero upstream HTTP requests: the cached branch
returns before requests.get is ever evaluated. -/
theorem fetch_weather_cached_hit (env : Env) (city country : Str) (d : WeatherData)
    (hget : env.cacheGetFails = false)
    (hcold : cacheGet env.cache env.now (cacheKeyOf city country) = none)
    (h1 : (fetch_weather env city country).result = Except.ok (some d))
    (env2 : Env) (hget2 : env2.cacheGetFails = false)
    (hc2 : env2.cache = (fetch_weather env city country).cache)
    (ht2 : env2.now < env.now + env.ttl) :
    fetch_weather env2 city country = ⟨Except.ok (some d), env2.cache, 0, 1⟩ := by
  by_cases hst : (env.upstream (qOf city country)).status = 200
  · cases hex : extractData (env.upstream (qOf city country)).body with
    | error e => simp [fetch_weather, hget, hcold, hst, hex] at h1
    | ok d2 =>
      by_cases hsf : env.cacheSetFails = true
      · simp [fetch_weather, hget, hcold, hst, hex, hsf] at h1
      · rw [Bool.not_eq_true] at hsf
        simp [fetch_weather, hget, hcold, hst, hex, hsf] at h1 hc2
        subst h1
        simp only [fetch_weather, hget2, Bool.false_eq_true, if_false]
        rw [hc2, cacheGet_cacheSet_hit _ _ _ _ _ ht2]
  · simp [fetch_weather, hget, hcold, hst] at h1

/-- Witness for C1 at a concrete environment. -/
theorem fetch_weather_cached_hit_witness :
    fetch_weather env1b ("hyderabad".data) ("in".data) =
      ⟨Except.ok (some sampleRecord), env1b.cache, 0, 1⟩ :=
  fetch_weather_cached_hit env1 ("hyderabad".data) ("in".data) sampleRecord rfl rfl rfl
    env1b rfl rfl (by decide)

/-- C2 counterexample: with the Redis backend unreachable, the first
cache read raises and the connection error is visible to the caller:
the lookup does not succeed and never falls through to the upstream
(zero upstream requests are made). -/
theorem cache_error_visible_cex :
    (fetch_weather envDown ("hyderabad".data) ("in".data)).result =
      Except.error PyErr.connectionError ∧
    (fetch_weather envDown ("hyderabad".data) ("in".data)).upstreamCalls = 0 :=
  ⟨rfl, rfl⟩

/-- C2 amended: wapp.py wraps no cache call in try/except, so a cache
backend error is never absorbed: a failing get aborts the lookup with
the connection error before any upstream request, and a failing setex
aborts an otherwise successful lookup after its single upstream
request; in both cases the cache-originated error reaches the caller
and the cache is left unchanged. -/
theorem cache_error_propagates (env : Env) (city country : Str) :
    (env.cacheGetFails = true →
      fetch_weather env city country =
        ⟨Except.error PyErr.connectionError, env.cache, 0, 1⟩) ∧
    (env.cacheGetFails = false → env.cacheSetFails = true →
      cacheGet env.cache env.now (cacheKeyOf city country) = none →
      (env.upstream (qOf city country)).status = 200 →
      ∀ d, extractData (env.upstream (qOf city country)).body = Except.ok d →
        fetch_weather env city country =
          ⟨Except.error PyErr.connectionError, env.cache, 1, 2⟩) := by
  constructor
  · intro h
    simp [fetch_weather, h]
  · intro hg hs hcold hst d hex
    simp [fetch_weather, hg, hcold, hst, hex, hs]

/-- Witness for the amended C2 at concrete failing backends. -/
theorem cache_error_propagates_witness :
    fetch_weather envDown ("h".data) ("in".data) =
      ⟨Except.error PyErr.connectionError, [], 0, 1⟩ ∧
    fetch_weather envSetDown ("h".data) ("in".data) =
      ⟨Except.error PyErr.connectionError, [], 1, 2⟩ :=
  ⟨(cache_error_propagates envDown ("h".data) ("in".data)).1 rfl,
   (cache_error_propagates envSetDown ("h".data) ("in".data)).2 rfl rfl rfl rfl
     sampleRecord rfl⟩

/-- C3 counterexample: a 200 response whose payload lacks the nested
'main' object makes fetch_weather raise KeyError('main') instead of
recording an unknown marker: the direct subscription body['main'] at
wapp.py line 90 crashes on a missing field. -/
theorem missing_field_raises_cex :
    (fetch_weather envNoMain ("hyderabad".data) ("in".data)).result =
      Except.error (PyErr.keyError kMain) :=
  rfl

/-- C3 amended: only the 'name' field is read defensively.  A payload
missing 'main' raises KeyError('main') out of fetch_weather; a payload
with every reading present but no 'name' succeeds with name = none
(the explicit Python None marker, not a numeric zero), every other
field being exactly the value found in the payload. -/
theorem defensive_read_name_only :
    (∀ env : Env, ∀ city country : Str, ∀ fields : List (Str × Json),
      env.cacheGetFails = false →
      cacheGet env.cache env.now (cacheKeyOf city country) = none →
      (env.upstream (qOf city country)).status = 200 →
      (env.upstream (qOf city country)).body = Json.jobj fields →
      lookupField fields kMain = none →
      (fetch_weather env city country).result = Except.error (PyErr.keyError kMain)) ∧
    (∀ fields mainF windF cloudsF : List (Str × Json),
      ∀ temp feels hum pres speed allv tz : Json,
      lookupField fields kName = none →
      lookupField fields kMain = some (Json.jobj mainF) →
      lookupField mainF kTemp = some temp →
      lookupField mainF kFeels = some feels →
      lookupField mainF kHumidity = some hum →
      lookupField mainF kPressure = some pres →
      lookupField fields kWind = some (Json.jobj windF) →
      lookupField windF kSpeed = some speed →
      lookupField fields kClouds = some (Json.jobj cloudsF) →
      lookupField cloudsF kAll = some allv →
      lookupField fields kTimezone = some tz →
      extractData (Json.jobj fields) =
        Except.ok ⟨none, temp, feels, hum, pres, speed, allv, tz⟩) := by
  constructor
  · intro env city country fields hg hcold hst hbody hmain
    simp [fetch_weather, hg, hcold, hst, hbody, extractData_no_main fields hmain]
  · intro fields mainF windF cloudsF temp feels hum pres speed allv tz
    exact extractData_all_present fields mainF windF cloudsF temp feels hum pres speed allv tz

/-- Witness for the amended C3 at concrete payloads. -/
theorem defensive_read_name_only_witness :
    (fetch_weather envNoMain ("h".data) ("in".data)).result =
      Except.error (PyErr.keyError kMain) ∧
    extractData (Json.jobj noNameFields) =
      Except.ok ⟨none, Json.jnum 30, Json.jnum 32, Json.jnum 65, Json.jnum 1012,
        Json.jnum 5, Json.jnum 40, Json.jnum 19800⟩ :=
  ⟨defensive_read_name_only.1 envNoMain ("h".data) ("in".data)
     [(kName, Json.jstr ("Hyderabad".data))] rfl rfl rfl rfl rfl,
   defensive_read_name_only.2 noNameFields
     [(kTemp, Json.jnum 30), (kFeels, Json.jnum 32),
      (kHumidity, Json.jnum 65), (kPressure, Json.jnum 1012)]
     [(kSpeed, Json.jnum 5)] [(kAll, Json.jnum 40)]
     (Json.jnum 30) (Json.jnum 32) (Json.jnum 65) (Json.jnum 1012)
     (Json.jnum 5) (Json.jnum 40) (Json.jnum 19800)
     rfl rfl rfl rfl rfl rfl rfl rfl rfl rfl rfl⟩

/-- C4: a non-200 upstream response makes fetch_weather return None
with the cache left exactly as it was (the setex at wapp.py line 103
is never reached), and any later identical lookup against that same
cache state issues a fresh upstream request. -/
theorem non200_not_cached (env : Env) (city country : Str)
    (hg : env.cacheGetFails = false)
    (hcold : cacheGet env.cache env.now (cacheKeyOf city country) = none)
    (hst : (env.upstream (qOf city country)).status ≠ 200) :
    fetch_weather env city country = ⟨Except.ok none, env.cache, 1, 1⟩ ∧
    (∀ env2 : Env, env2.cacheGetFails = false → env2.cache = env.cache →
      env.now ≤ env2.now →
      (fetch_weather env2 city country).upstreamCalls = 1) := by
  constructor
  · simp [fetch_weather, hg, hcold, hst]
  · intro env2 hg2 hc2 hnow
    have hcold2 : cacheGet env2.cache env2.now (cacheKeyOf city country) = none := by
      rw [hc2]
      exact cacheGet_none_mono _ _ _ _ hcold hnow
    simp only [fetch_weather, hg2, Bool.false_eq_true, if_false, hcold2]
    split
    · rfl
    · split
      · rfl
      · split <;> rfl

/-- Witness for C4 at a concrete 404 environment. -/
theorem non200_not_cached_witness :
    fetch_weather env404 ("hyderabad".data) ("in".data) =
      ⟨Except.ok none, env404.cache, 1, 1⟩ ∧
    (fetch_weather env404 ("hyderabad".data) ("in".data)).upstreamCalls = 1 :=
  have h := non200_not_cached env404 ("hyderabad".data) ("in".data) rfl rfl (by decide)
  ⟨h.1, h.2 env404 rfl rfl (Nat.le_refl _)⟩

/-- Helper: a key whose first matching entry has passed its deadline
reads as missing. -/
theorem cacheGet_expired_none (c : CacheState) (now : Nat) (k : Str) (e : CacheEntry)
    (hfind : c.find? (fun x => x.key == k) = some e) (hexp : ¬ now < e.deadline) :
    cacheGet c now k = none := by
  induction c with
  | nil => simp at hfind
  | cons a rest ih =>
    rw [List.find?_cons] at hfind
    unfold cacheGet
    by_cases hk : (a.key == k) = true
    · rw [if_pos hk]
      have hae : a = e := by simpa [hk] using hfind
      subst hae
      rw [if_neg hexp]
    · rw [if_neg hk]
      apply ih
      simpa [hk] using hfind

/-- C5: an entry is valid exactly while now < storedAt + ttl; a lookup
strictly after the deadline behaves identically (same result, same
upstream and cache call counts) to the same lookup with the entry
physically absent, and issues exactly one fresh upstream request
instead of returning the stale record. -/
theorem ttl_expiry_triggers_fresh_fetch (env : Env) (city country : Str) (e : CacheEntry)
    (hg : env.cacheGetFails = false)
    (hfind : env.cache.find? (fun x => x.key == cacheKeyOf city country) = some e)
    (hexp : e.deadline < env.now) :
    (fetch_weather env city country).result =
      (fetch_weather (eraseEnv env (cacheKeyOf city country)) city country).result ∧
    (fetch_weather env city country).upstreamCalls =
      (fetch_weather (eraseEnv env (cacheKeyOf city country)) city country).upstreamCalls ∧
    (fetch_weather env city country).cacheCalls =
      (fetch_weather (eraseEnv env (cacheKeyOf city country)) city country).cacheCalls ∧
    (fetch_weather env city country).upstreamCalls = 1 := by
  have hcold : cacheGet env.cache env.now (cacheKeyOf city country) = none :=
    cacheGet_expired_none _ _ _ e hfind (by omega)
  have hcold2 :
      cacheGet (eraseKey env.cache (cacheKeyOf city country)) env.now (cacheKeyOf city country) = none :=
    cacheGet_eraseKey _ _ _
  by_cases hst : (env.upstream (qOf city country)).status = 200
  · cases hex : extractData (env.upstream (qOf city country)).body with
    | error e2 => simp [fetch_weather, eraseEnv, hg, hcold, hcold2, hst, hex]
    | ok d =>
      by_cases hsf : env.cacheSetFails = true <;>
        simp [fetch_weather, eraseEnv, hg, hcold, hcold2, hst, hex, hsf]
  · simp [fetch_weather, eraseEnv, hg, hcold, hcold2, hst]

/-- Witness for C5: a concrete entry stored at time 1 with TTL 300 is
ignored at time 302 and the upstream is asked again. -/
theorem ttl_expiry_triggers_fresh_fetch_witness :
    (fetch_weather envExpired ("hyderabad".data) ("in".data)).result =
      (fetch_weather (eraseEnv envExpired (cacheKeyOf ("hyderabad".data) ("in".data)))
        ("hyderabad".data) ("in".data)).result ∧
    (fetch_weather envExpired ("hyderabad".data) ("in".data)).upstreamCalls =
      (fetch_weather (eraseEnv envExpired (cacheKeyOf ("hyderabad".data) ("in".data)))
        ("hyderabad".data) ("in".data)).upstreamCalls ∧
    (fetch_weather envExpired ("hyderabad".data) ("in".data)).cacheCalls =
      (fetch_weather (eraseEnv envExpired (cacheKeyOf ("hyderabad".data) ("in".data)))
        ("hyderabad".data) ("in".data)).cacheCalls ∧
    (fetch_weather envExpired ("hyderabad".data) ("in".data)).upstreamCalls = 1 :=
  ttl_expiry_triggers_fresh_fetch envExpired ("hyderabad".data) ("in".data)
    ⟨cacheKeyOf ("hyderabad".data) ("in".data), sampleRecord, 301⟩ rfl rfl (by decide)

/-- Helper: the split finds no comma exactly when the string has none. -/
theorem pySplitComma1_none_iff (s : Str) : pySplitComma1 s = none ↔ ¬ (',' ∈ s) := by
  induction s with
  | nil => simp [pySplitComma1]
  | cons c rest ih =>
    by_cases hc : c = ','
    · subst hc
      simp [pySplitComma1]
    · have hc2 : ¬ ',' = c := fun h => hc h.symm
      cases hr : pySplitComma1 rest with
      | some p =>
        rw [hr] at ih
        have hmem : ',' ∈ rest := by
          by_contra hnm
          exact absurd (ih.mpr hnm) (by simp)
        simp [pySplitComma1, hc, hr, hmem]
      | none =>
        rw [hr] at ih
        have hnm : ¬ ',' ∈ rest := ih.mp rfl
        simp [pySplitComma1, hc, hr, hc2, hnm]

/-- C7: a malformed request (missing or empty city parameter, or an
input without a comma) is answered with a validation message
immediately: the cache state is untouched and neither the Redis client
nor the upstream provider is contacted (both call counters are 0). -/
theorem weather_rejects_malformed (env : Env) :
    (∀ info : Option Str, (info = none ∨ info = some []) →
      weather env info = ⟨Except.ok (RouteResponse.text invalidInputMsg), env.cache, 0, 0⟩) ∧
    (∀ s : Str, s ≠ [] → ¬ (',' ∈ s) →
      weather env (some s) = ⟨Except.ok (RouteResponse.text invalidFormatMsg), env.cache, 0, 0⟩) := by
  constructor
  · rintro info (rfl | rfl)
    · rfl
    · rfl
  · intro s hne hnc
    have hsplit : pySplitComma1 s = none := (pySplitComma1_none_iff s).mpr hnc
    have hie : s.isEmpty = false := by
      cases s with
      | nil => exact absurd rfl hne
      | cons a t => rfl
    simp [weather, hie, hsplit]

/-- Witness for C7: a missing parameter and a comma-free input. -/
theorem weather_rejects_malformed_witness :
    weather env1 none = ⟨Except.ok (RouteResponse.text invalidInputMsg), [], 0, 0⟩ ∧
    weather env1 (some ("hyderabad".data)) =
      ⟨Except.ok (RouteResponse.text invalidFormatMsg), [], 0, 0⟩ :=
  ⟨(weather_rejects_malformed env1).1 none (Or.inl rfl),
   (weather_rejects_malformed env1).2 ("hyderabad".data) (by decide) (by decide)⟩

/-- Helper: every path of fetch_weather attempts at least one Redis
client call. -/
theorem one_le_fetch_weather_cacheCalls (env : Env) (city country : Str) :
    1 ≤ (fetch_weather env city country).cacheCalls := by
  by_cases hg : env.cacheGetFails = true
  · simp [fetch_weather, hg]
  · rw [Bool.not_eq_true] at hg
    cases hcg : cacheGet env.cache env.now (cacheKeyOf city country) with
    | some d => simp [fetch_weather, hg, hcg]
    | none =>
      by_cases hst : (env.upstream (qOf city country)).status = 200
      · cases hex : extractData (env.upstream (qOf city country)).body with
        | error e => simp [fetch_weather, hg, hcg, hst, hex]
        | ok d =>
          by_cases hsf : env.cacheSetFails = true <;>
            simp [fetch_weather, hg, hcg, hst, hex, hsf]
      · simp [fetch_weather, hg, hcg, hst]

/-- C10: the route's validation accepts every non-empty input that
contains at least one comma: the request is never answered with a
validation message, and the cache is contacted (at least one Redis
call), empty city or country components included. -/
theorem weather_accepts_any_comma (env : Env) (s : Str)
    (hne : s ≠ []) (hc : ',' ∈ s) :
    (weather env (some s)).response ≠ Except.ok (RouteResponse.text invalidInputMsg) ∧
    (weather env (some s)).response ≠ Except.ok (RouteResponse.text invalidFormatMsg) ∧
    1 ≤ (weather env (some s)).cacheCalls := by
  obtain ⟨p, hp⟩ : ∃ p, pySplitComma1 s = some p := by
    cases hps : pySplitComma1 s with
    | none => exact absurd ((pySplitComma1_none_iff s).mp hps) (not_not_intro hc)
    | some p => exact ⟨p, rfl⟩
  have hie : s.isEmpty = false := by
    cases s with
    | nil => exact absurd rfl hne
    | cons a t => rfl
  cases hres : (fetch_weather env (normalizeComponent p.1) (normalizeComponent p.2)).result with
  | error e =>
    refine ⟨?_, ?_, ?_⟩ <;> simp [weather, hie, hp, hres, one_le_fetch_weather_cacheCalls]
  | ok od =>
    cases od with
    | none =>
      refine ⟨?_, ?_, ?_⟩ <;>
        simp [weather, hie, hp, hres, one_le_fetch_weather_cacheCalls, invalidInputMsg,
          invalidFormatMsg, fetchFailedMsg]
    | some d =>
      refine ⟨?_, ?_, ?_⟩ <;> simp [weather, hie, hp, hres, one_le_fetch_weather_cacheCalls]

/-- Witness for C10: the input ",in" with an empty city component
passes validation and reaches both the cache and the upstream. -/
theorem weather_accepts_any_comma_witness :
    (weather env1 (some (",in".data))).response ≠ Except.ok (RouteResponse.text invalidInputMsg) ∧
    (weather env1 (some (",in".data))).response ≠ Except.ok (RouteResponse.text invalidFormatMsg) ∧
    1 ≤ (weather env1 (some (",in".data))).cacheCalls :=
  weather_accepts_any_comma env1 (",in".data) (by decide) (by decide)

/-- C8 counterexample: a 500 (retryable per the claim) and a 404
(non-retryable) upstream failure produce identical caller-visible
responses — the same generic message — and the 500 lookup performs
exactly one upstream attempt, so no retry ever happens. -/
theorem upstream_failure_uniform_cex :
    (weather env500 (some ("hyderabad,in".data))).response =
      (weather env404 (some ("hyderabad,in".data))).response ∧
    (weather env500 (some ("hyderabad,in".data))).upstreamCalls = 1 :=
  ⟨rfl, rfl⟩

/-- C8 amended: wapp.py treats every non-200 upstream status
identically: exactly one upstream request (no retry), fetch_weather
returns None, the cache is untouched, and the route answers with the
single failure message used for all upstream errors, so a 4xx and a
5xx are indistinguishable to the caller. -/
theorem route_upstream_failure_uniform (env : Env) (s a b : Str)
    (hsplit : pySplitComma1 s = some (a, b))
    (hg : env.cacheGetFails = false)
    (hcold : cacheGet env.cache env.now
      (cacheKeyOf (normalizeComponent a) (normalizeComponent b)) = none)
    (hst : (env.upstream (qOf (normalizeComponent a) (normalizeComponent b))).status ≠ 200) :
    weather env (some s) =
      ⟨Except.ok (RouteResponse.text fetchFailedMsg), env.cache, 1, 1⟩ := by
  have hie : s.isEmpty = false := by
    cases s with
    | nil => simp [pySplitComma1] at hsplit
    | cons c t => rfl
  have hfw : fetch_weather env (normalizeComponent a) (normalizeComponent b) =
      ⟨Except.ok none, env.cache, 1, 1⟩ := by
    simp [fetch_weather, hg, hcold, hst]
  simp [weather, hie, hsplit, hfw]

/-- Witness for the amended C8 at the concrete 500 environment. -/
theorem route_upstream_failure_uniform_witness :
    weather env500 (some ("hyderabad,in".data)) =
      ⟨Except.ok (RouteResponse.text fetchFailedMsg), [], 1, 1⟩ :=
  route_upstream_failure_uniform env500 ("hyderabad,in".data) ("hyderabad".data) ("in".data)
    (by decide) rfl rfl (by decide)

/-- Helper: a single request driven to completion through the
interleaving model reproduces fetch_weather exactly (same upstream
call count, same result, same final cache). -/
theorem runSched_single_matches_fetch_weather (ce : ConcEnv) (cache : CacheState)
    (city country : Str) :
    (runSched ce ⟨cache, 0, [⟨city, country, ThreadPC.atGet⟩]⟩ [0, 0, 0]).upstreamCalls =
      (fetch_weather ⟨false, false, cache, ce.now, ce.ttl, ce.upstream⟩ city country).upstreamCalls ∧
    threadResult (runSched ce ⟨cache, 0, [⟨city, country, ThreadPC.atGet⟩]⟩ [0, 0, 0]) 0 =
      some (ThreadPC.finished
        (fetch_weather ⟨false, false, cache, ce.now, ce.ttl, ce.upstream⟩ city country).result) ∧
    (runSched ce ⟨cache, 0, [⟨city, country, ThreadPC.atGet⟩]⟩ [0, 0, 0]).cache =
      (fetch_weather ⟨false, false, cache, ce.now, ce.ttl, ce.upstream⟩ city country).cache := by
  cases hcg : cacheGet cache ce.now (cacheKeyOf city country) with
  | some d => simp [runSched, stepSys, stepThread, fetch_weather, threadResult, hcg]
  | none =>
    by_cases hst : (ce.upstream (qOf city country)).status = 200
    · cases hex : extractData (ce.upstream (qOf city country)).body with
      | error e =>
        simp [runSched, stepSys, stepThread, fetch_weather, threadResult, hcg, hst, hex]
      | ok d =>
        simp [runSched, stepSys, stepThread, fetch_weather, threadResult, hcg, hst, hex]
    · simp [runSched, stepSys, stepThread, fetch_weather, threadResult, hcg, hst]

/-- C9 counterexample: under the interleaving in which both concurrent
requests check the cold cache before either populates it, two upstream
fetches are issued for the same key, not one. -/
theorem stampede_not_deduplicated_cex :
    (runSched concEnv1 twoThreads stampedeSchedule).upstreamCalls = 2 ∧
    ¬ (runSched concEnv1 twoThreads stampedeSchedule).upstreamCalls = 1 :=
  ⟨rfl, by decide⟩

/-- C9 amended: the code has no per-key dedup: whenever both requests
pass their cache check before either write (the stampede
interleaving), each issues its own upstream fetch — 2 upstream calls
for 2 concurrent lookups of the same cold key — the record is written
twice, and both callers do receive the same successful record. -/
theorem stampede_two_upstream_calls (ce : ConcEnv) (city country : Str) (d : WeatherData)
    (hst : (ce.upstream (qOf city country)).status = 200)
    (hex : extractData (ce.upstream (qOf city country)).body = Except.ok d) :
    runSched ce ⟨[], 0, [⟨city, country, ThreadPC.atGet⟩, ⟨city, country, ThreadPC.atGet⟩]⟩
        stampedeSchedule =
      ⟨cacheSet (cacheSet [] (cacheKeyOf city country) d (ce.now + ce.ttl))
         (cacheKeyOf city country) d (ce.now + ce.ttl), 2,
       [⟨city, country, ThreadPC.finished (Except.ok (some d))⟩,
        ⟨city, country, ThreadPC.finished (Except.ok (some d))⟩]⟩ := by
  simp [runSched, stampedeSchedule, stepSys, stepThread, cacheGet, cacheSet, hst, hex]

/-- Witness for the amended C9 at the concrete two-request system. -/
theorem stampede_two_upstream_calls_witness :
    runSched concEnv1 twoThreads stampedeSchedule =
      ⟨cacheSet (cacheSet [] (cacheKeyOf ("hyderabad".data) ("in".data)) sampleRecord 300)
         (cacheKeyOf ("hyderabad".data) ("in".data)) sampleRecord 300, 2,
       [⟨"hyderabad".data, "in".data, ThreadPC.finished (Except.ok (some sampleRecord))⟩,
        ⟨"hyderabad".data, "in".data, ThreadPC.finished (Except.ok (some sampleRecord))⟩]⟩ :=
  stampede_two_upstream_calls concEnv1 ("hyderabad".data) ("in".data) sampleRecord rfl rfl

/-- Helper: the codepoint of a lowercased character. -/
theorem toNat_lowerChar (c : Char) :
    (lowerChar c).toNat =
      if 65 ≤ c.toNat ∧ c.toNat ≤ 90 then c.toNat + 32 else c.toNat := by
  unfold lowerChar
  split
  · next h =>
    unfold Char.ofNat
    rw [dif_pos (Or.inl (by omega))]
    rfl
  · rfl

/-- Helper: lowercasing maps a character to a comma only if it already
is one. -/
theorem lowerChar_eq_comma_iff (c : Char) : lowerChar c = ',' ↔ c = ',' := by
  unfold lowerChar
  split
  · next h =>
    constructor
    · intro he
      have h44 : (Char.ofNat (c.toNat + 32)).toNat = 44 := by rw [he]; rfl
      rw [show (Char.ofNat (c.toNat + 32)).toNat = c.toNat + 32 by
        unfold Char.ofNat
        rw [dif_pos (Or.inl (by omega))]
        rfl] at h44
      omega
    · intro he
      subst he
      exact absurd h (by decide)
  · exact Iff.rfl

/-- Helper: lowercasing preserves whitespace-ness. -/
theorem isWS_lowerChar (c : Char) : isWS (lowerChar c) = isWS c := by
  by_cases h : 65 ≤ c.toNat ∧ c.toNat ≤ 90
  · have ha : (lowerChar c).toNat = c.toNat + 32 := by rw [toNat_lowerChar, if_pos h]
    have h1 : isWS (lowerChar c) = false := by
      simp only [isWS, ha, Bool.or_eq_false_iff, beq_eq_false_iff_ne, ne_eq]
      omega
    have h2 : isWS c = false := by
      simp only [isWS, Bool.or_eq_false_iff, beq_eq_false_iff_ne, ne_eq]
      omega
    rw [h1, h2]
  · unfold lowerChar
    rw [if_neg h]

/-- Helper: dropping leading whitespace skips a fully-whitespace
prefix. -/
theorem dropWhile_allWS_append (w s : Str) (hw : ∀ c ∈ w, isWS c = true) :
    List.dropWhile isWS (w ++ s) = List.dropWhile isWS s := by
  induction w with
  | nil => rfl
  | cons a t ih =>
    simp only [List.cons_append, List.dropWhile_cons]
    rw [if_pos (hw a (List.mem_cons_self a t))]
    exact ih fun c hc => hw c (List.mem_cons_of_mem a hc)

/-- Helper: an all-whitespace string is dropped entirely. -/
theorem dropWhile_allWS_self (w : Str) (hw : ∀ c ∈ w, isWS c = true) :
    List.dropWhile isWS w = [] := by
  have h := dropWhile_allWS_append w [] hw
  simpa using h

/-- Helper: strip is invariant under whitespace padding on both
sides. -/
theorem pyStrip_pad (s w1 w2 : Str) (h1 : ∀ c ∈ w1, isWS c = true)
    (h2 : ∀ c ∈ w2, isWS c = true) :
    pyStrip (w1 ++ s ++ w2) = pyStrip s := by
  unfold pyStrip
  rw [List.append_assoc, dropWhile_allWS_append w1 (s ++ w2) h1, List.dropWhile_append]
  by_cases he : (List.dropWhile isWS s).isEmpty = true
  · rw [if_pos he, dropWhile_allWS_self w2 h2]
    have hs : List.dropWhile isWS s = [] := by
      cases hd : List.dropWhile isWS s with
      | nil => rfl
      | cons a t => rw [hd] at he; simp at he
    rw [hs]
  · rw [if_neg he, List.reverse_append,
      dropWhile_allWS_append w2.reverse _ (fun c hc => h2 c (List.mem_reverse.mp hc))]

/-- Helper: strip commutes with lowercasing. -/
theorem pyStrip_map_lower (s : Str) :
    pyStrip (s.map lowerChar) = (pyStrip s).map lowerChar := by
  have hcomp : isWS ∘ lowerChar = isWS := by
    funext c
    exact isWS_lowerChar c
  unfold pyStrip
  rw [List.dropWhile_map, hcomp, ← List.map_reverse, List.dropWhile_map, hcomp,
    ← List.map_reverse]

/-- Helper: the first-comma split commutes with lowercasing. -/
theorem pySplitComma1_map_lower (s : Str) :
    pySplitComma1 (s.map lowerChar) =
      (pySplitComma1 s).map (fun p => (p.1.map lowerChar, p.2.map lowerChar)) := by
  induction s with
  | nil => rfl
  | cons c rest ih =>
    simp only [List.map_cons, pySplitComma1]
    by_cases hc : c = ','
    · subst hc
      have hl : lowerChar ',' = ',' := rfl
      rw [if_pos hl, if_pos rfl]
      rfl
    · have hc2 : ¬ lowerChar c = ',' := fun h => hc ((lowerChar_eq_comma_iff c).mp h)
      rw [if_neg hc2, if_neg hc, ih]
      cases pySplitComma1 rest with
      | none => rfl
      | some p => rfl

/-- Helper: splitting a string whose first comma is explicit. -/
theorem pySplitComma1_append_comma (x y : Str) (hx : ¬ ',' ∈ x) :
    pySplitComma1 (x ++ ',' :: y) = some (x, y) := by
  induction x with
  | nil => simp [pySplitComma1]
  | cons c t ih =>
    have hc : ¬ c = ',' := by
      intro h
      exact hx (by rw [h]; exact List.mem_cons_self ',' t)
    simp only [List.cons_append, pySplitComma1, List.append_eq]
    rw [if_neg hc, ih (fun hm => hx (List.mem_cons_of_mem c hm))]

/-- C6 counterexample: the inputs "a b,c" and "a  b,c" differ only in
internal whitespace, yet derive different cache keys: strip removes
only leading and trailing whitespace, so internal whitespace survives
into the key. -/
theorem derive_key_internal_ws_cex :
    deriveKey ("a b,c".data) = some ("weather:a b,c".data) ∧
    deriveKey ("a  b,c".data) = some ("weather:a  b,c".data) ∧
    (("weather:a b,c".data == "weather:a  b,c".data) = false) :=
  ⟨by decide, by decide, by decide⟩

/-- C6 amended: key derivation is invariant under letter-case changes
and under leading or trailing whitespace around the city and country
components (internal whitespace, excluded by the counterexample, is
preserved verbatim): whitespace padding of the components leaves the
key unchanged, and any two inputs equal after lowercasing derive the
same key. -/
theorem derive_key_case_trim_invariant :
    (∀ a b w1 w2 w3 w4 : Str,
      (∀ c ∈ w1, isWS c = true) → (∀ c ∈ w2, isWS c = true) →
      (∀ c ∈ w3, isWS c = true) → (∀ c ∈ w4, isWS c = true) →
      ¬ ',' ∈ a →
      deriveKey (w1 ++ a ++ w2 ++ ',' :: (w3 ++ b ++ w4)) = deriveKey (a ++ ',' :: b)) ∧
    (∀ s1 s2 : Str, s1.map lowerChar = s2.map lowerChar →
      deriveKey s1 = deriveKey s2) := by
  constructor
  · intro a b w1 w2 w3 w4 hw1 hw2 hw3 hw4 ha
    have hxc : ¬ ',' ∈ (w1 ++ a ++ w2) := by
      intro hm
      rcases List.mem_append.mp hm with hm1 | hm1
      · rcases List.mem_append.mp hm1 with hm2 | hm2
        · exact absurd (hw1 _ hm2) (by decide)
        · exact ha hm2
      · exact absurd (hw2 _ hm1) (by decide)
    unfold deriveKey
    rw [pySplitComma1_append_comma _ _ hxc, pySplitComma1_append_comma _ _ ha]
    have hna : normalizeComponent (w1 ++ (a ++ w2)) = normalizeComponent a := by
      unfold normalizeComponent
      rw [← List.append_assoc, pyStrip_pad a w1 w2 hw1 hw2]
    have hnb : normalizeComponent (w3 ++ (b ++ w4)) = normalizeComponent b := by
      unfold normalizeComponent
      rw [← List.append_assoc, pyStrip_pad b w3 w4 hw3 hw4]
    simp [List.append_assoc, hna, hnb]
  · intro s1 s2 h
    have h1 := pySplitComma1_map_lower s1
    have h2 := pySplitComma1_map_lower s2
    rw [h] at h1
    rw [h1] at h2
    unfold deriveKey
    cases e1 : pySplitComma1 s1 with
    | none =>
      cases e2 : pySplitComma1 s2 with
      | none => rfl
      | some q => rw [e1, e2] at h2; simp at h2
    | some p =>
      cases e2 : pySplitComma1 s2 with
      | none => rw [e1, e2] at h2; simp at h2
      | some q =>
        rw [e1, e2] at h2
        simp only [Option.map_some', Option.some.injEq, Prod.mk.injEq] at h2
        obtain ⟨h21, h22⟩ := h2
        have k1 : normalizeComponent p.1 = normalizeComponent q.1 := by
          unfold normalizeComponent pyLower
          rw [← pyStrip_map_lower, h21, pyStrip_map_lower]
        have k2 : normalizeComponent p.2 = normalizeComponent q.2 := by
          unfold normalizeComponent pyLower
          rw [← pyStrip_map_lower, h22, pyStrip_map_lower]
        simp [k1, k2]

/-- Witness for the amended C6: whitespace padding and case variants
of hyderabad,in derive the byte-identical key. -/
theorem derive_key_case_trim_invariant_witness :
    deriveKey ((" ".data) ++ ("hyderabad".data) ++ (" ".data) ++
        ',' :: ((" ".data) ++ ("in".data) ++ (" ".data))) =
      deriveKey (("hyderabad".data) ++ ',' :: ("in".data)) ∧
    deriveKey ("HYDerabad,IN".data) = deriveKey ("hyderabad,in".data) :=
  ⟨derive_key_case_trim_invariant.1 ("hyderabad".data) ("in".data)
     (" ".data) (" ".data) (" ".data) (" ".data)
     (by decide) (by decide) (by decide) (by decide) (by decide),
   derive_key_case_trim_invariant.2 ("HYDerabad,IN".data) ("hyderabad,in".data) (by decide)⟩

end WeatherAPI
